import Mathlib

/-!
Shallow embedding of the terraform-provider-athena client
(`api_client.go`, the reservation resource binding file, and the
provider/config wiring) together with theorems checking the
natural-language specification against it.

Modelling conventions:
- Go machine integers carry ids and never overflow in the scenarios of
  interest; they are embedded as `Int`.
- Network effects are supplied by an `Oracle` record (the responses the
  remote service would give) and the calls a function issues are returned
  as an explicit `NetCall` list.
- A Go runtime panic (nil-pointer dereference, index out of range) is the
  `GoOutcome.crash` outcome; a returned non-nil `error` is `GoOutcome.err`.
- Wall-clock time in the poll loop is explicit: `dur i` is the number of
  milliseconds the i-th status fetch takes, and the 5000 ms sleep after
  every fetch is added explicitly, exactly as `time.Since` would observe.
-/

namespace Athena

/-! ### Constants (api_client.go lines 25-36) -/

def ApiVersion : String := "api/v3"

def ApiNamespace : String := "onefuse"

def WorkspaceResourceType : String := "workspaces"

def ModulePolicyResourceType : String := "modulePolicies"

def IPAMReservationResourceType : String := "ipamReservations"

def JobStatusResourceType : String := "jobStatus"

def JobSuccess : String := "Successful"

def JobFailed : String := "Failed"

/-! ### Config (provider file) and URL helpers (api_client.go lines 596-610) -/

structure Config where
  scheme : String
  address : String
  port : String
  user : String
  password : String
  verifySSL : Bool
deriving DecidableEq

/-- Go `strconv.Itoa`. -/
def goItoa (i : Int) : String := toString i

/-- Digit-string accumulator used by the `strconv.Atoi` model: consumes the
remaining characters, failing on the first non-digit. -/
def goDigitsAux : List Char → Nat → Option Nat
  | [], acc => some acc
  | c :: cs, acc => if c.isDigit then goDigitsAux cs (acc * 10 + (c.toNat - 48)) else none

/-- Go `strconv.Atoi`: optional sign followed by at least one digit;
anything else (in particular the empty string) is an error, here `none`.
Overflow is not modelled (ids are small). -/
def goAtoi (s : String) : Option Int :=
  match s.data with
  | [] => none
  | '-' :: rest =>
    match rest with
    | [] => none
    | _ => (goDigitsAux rest 0).map (fun n => -(n : Int))
  | '+' :: rest =>
    match rest with
    | [] => none
    | _ => (goDigitsAux rest 0).map (fun n => (n : Int))
  | l => (goDigitsAux l 0).map (fun n => (n : Int))

/-- `collectionURL` (api_client.go line 596): base URL plus
`api/v3/onefuse/{resourceType}/`.  `path.Join` on these constant,
slash-free components is plain joining with `/`. -/
def collectionURL (config : Config) (resourceType : String) : String :=
  config.scheme ++ "://" ++ config.address ++ ":" ++ config.port ++ "/" ++
    ApiVersion ++ "/" ++ ApiNamespace ++ "/" ++ resourceType ++ "/"

/-- `itemURL` (api_client.go line 606). -/
def itemURL (config : Config) (resourceType : String) (id : Int) : String :=
  collectionURL config resourceType ++ goItoa id ++ "/"

/-- `urlFromHref` (api_client.go line 602). -/
def urlFromHref (config : Config) (href : String) : String :=
  config.scheme ++ "://" ++ config.address ++ ":" ++ config.port ++ href

/-! ### Data model (api_client.go lines 48-126) -/

structure LinkRef where
  href : String
  title : String
deriving DecidableEq

structure WorkspaceLinks where
  self : LinkRef
deriving DecidableEq

structure Workspace where
  links : Option WorkspaceLinks
  id : Int
  name : String
deriving DecidableEq

structure IPAMLinks where
  self : LinkRef
  workspace : LinkRef
  policy : LinkRef
  jobMetadata : LinkRef
deriving DecidableEq

/-- `IPAMReservation` (api_client.go line 67).  The
`map[string]interface{}` of template properties is embedded as an
association list with opaque string values. -/
structure IPAMReservation where
  links : Option IPAMLinks
  id : Int
  hostname : String
  policyID : Int
  policy : String
  workspaceURL : String
  ipAddress : String
  gateway : String
  primaryDNS : String
  secondaryDNS : String
  network : String
  subnet : String
  dnsSuffix : String
  netmask : String
  nicLabel : String
  templateProperties : List (String × String)
deriving DecidableEq

structure JobLinks where
  self : LinkRef
  jobMetadata : LinkRef
  managedObject : LinkRef
  policy : LinkRef
  workspace : LinkRef
deriving DecidableEq

structure JobErrorItem where
  message : String
deriving DecidableEq

/-- The `ErrorDetails` field of `JobStatus`: both the struct pointer and
the inner `Errors *[]...` pointer can be nil, hence the two `Option`s. -/
structure JobErrorDetails where
  code : Int
  errors : Option (List JobErrorItem)
deriving DecidableEq

structure JobStatus where
  links : Option JobLinks
  id : Int
  jobStateDescription : String
  jobState : String
  jobTrackingId : String
  jobType : String
  errorDetails : Option JobErrorDetails
deriving DecidableEq

/-- Outcome of a Go function returning `(T, error)`: a value, a non-nil
error, or a runtime panic (`crash`). -/
inductive GoOutcome (α : Type) where
  | ok (a : α)
  | err (msg : String)
  | crash
deriving DecidableEq

/-! ### The poll loop `waitForJob` (api_client.go lines 383-403)

One loop iteration is: fetch the job status, record its state, sleep
5000 ms, return the timeout error if more than 3600000 ms have elapsed
since submission, and only then re-check the loop condition (state equal
to `Successful` or `Failed`).  The fetch oracle is total (the claims
quantify over fetched status sequences, not over transport failures).
Since every iteration adds at least the 5000 ms sleep to the elapsed
time, the loop runs at most 721 iterations; the recursion is fuelled
with 721 and the fuel is proved sufficient below. -/

def isTerminal (js : JobStatus) : Bool :=
  js.jobState == JobSuccess || js.jobState == JobFailed

/-- Fuelled poll loop.  Returns the final fetched status (`none` encodes
the timeout error) together with the number of status fetches issued.
`elapsed` is the milliseconds since submission at iteration entry. -/
def waitAux (statuses : Nat → JobStatus) (dur : Nat → Nat) :
    Nat → Nat → Nat → Option JobStatus × Nat
  | 0, _, _ => (none, 0)
  | fuel + 1, i, elapsed =>
    if 3600000 < elapsed + dur i + 5000 then (none, 1)
    else if isTerminal (statuses i) then (some (statuses i), 1)
    else
      ((waitAux statuses dur fuel (i + 1) (elapsed + dur i + 5000)).1,
       (waitAux statuses dur fuel (i + 1) (elapsed + dur i + 5000)).2 + 1)

/-- `waitForJob`: result of the poll loop (`none` is the
"Timed out while waiting for job to complete." error). -/
def waitForJob (statuses : Nat → JobStatus) (dur : Nat → Nat) : Option JobStatus :=
  (waitAux statuses dur 721 0 0).1

/-- Number of job-status fetches the poll loop performs. -/
def pollFetchCount (statuses : Nat → JobStatus) (dur : Nat → Nat) : Nat :=
  (waitAux statuses dur 721 0 0).2

/-- Elapsed milliseconds since submission at the end of iteration `k`
(after that iteration's fetch and its 5000 ms sleep) when the loop body
is entered at iteration `i` with `elapsed` already on the clock. -/
def elapsedFrom (dur : Nat → Nat) : Nat → Nat → Nat → Nat
  | i, elapsed, 0 => elapsed + dur i + 5000
  | i, elapsed, k + 1 => elapsedFrom dur (i + 1) (elapsed + dur i + 5000) k

/-- Elapsed milliseconds at the end of iteration `k` of the whole loop. -/
def elapsedAfter (dur : Nat → Nat) (k : Nat) : Nat :=
  elapsedFrom dur 0 0 k

/-! ### Job error surfacing (api_client.go lines 573-578) -/

/-- Rendering of Go `fmt`'s `%v` on the dereferenced `[]struct{Message
string}`: elements as `{message}` separated by single spaces, the whole
slice in square brackets. -/
def goFmtErrsCore : List JobErrorItem → String
  | [] => ""
  | [e] => "\x7b" ++ e.message ++ "\x7d"
  | e :: rest => "\x7b" ++ e.message ++ "\x7d" ++ " " ++ goFmtErrsCore rest

def goFmtErrList (errs : List JobErrorItem) : String :=
  "[" ++ goFmtErrsCore errs ++ "]"

/-- The failure message `fmt.Sprintf("Job %s (%d) failed with message %v", ...)`
built by `checkForJobErrors`, with `%v` applied to the dereferenced error
slice. -/
def jobFailureMessage (js : JobStatus) (errs : List JobErrorItem) : String :=
  "Job " ++ js.jobType ++ " (" ++ goItoa js.id ++ ") failed with message " ++
    goFmtErrList errs

/-- `checkForJobErrors` (api_client.go line 573).  On any non-Successful
state it evaluates `*jobStatus.ErrorDetails.Errors` while formatting the
message, so a nil `ErrorDetails` or a nil inner `Errors` pointer is a
runtime panic (`crash`). -/
def checkForJobErrors (js : JobStatus) : GoOutcome Unit :=
  if js.jobState = JobSuccess then GoOutcome.ok ()
  else
    match js.errorDetails with
    | none => GoOutcome.crash
    | some ed =>
      match ed.errors with
      | none => GoOutcome.crash
      | some errs => GoOutcome.err (jobFailureMessage js errs)

/-! ### Network oracle and call log -/

/-- One outgoing HTTP request of the create flow. -/
inductive NetCall where
  | getWorkspacesFilterDefault
  | postReservation (body : IPAMReservation)
  | getJobStatus (id : Int)
  | getManagedObject (url : String)
deriving DecidableEq

/-- Responses the remote service gives during one create call:
the workspace list answering `GET workspaces/?filter=name.exact:Default`,
the decoded `JobStatus` body of the submission response, the polled
status sequence with the wall-clock duration of each poll fetch, and the
entity returned by `GET` on a managed-object URL. -/
structure Oracle where
  defaultWorkspaces : List Workspace
  submitJob : JobStatus
  pollStates : Nat → JobStatus
  pollDur : Nat → Nat
  fetchEntity : String → IPAMReservation

/-- `findDefaultWorkspaceID` (api_client.go lines 474-511), modelled at
the point where the transport has already delivered the decoded
`WorkspacesListResponse`.  Returns `(workspaceID, error)`.  On an empty
workspace list the Go code runs
`err = errors.WithMessage(clientErr, "...Failed to find default workspace!")`
with `clientErr` nil, and `errors.WithMessage` of a nil cause is nil: the
function then returns the zero-value id `""` with a nil error. -/
def findDefaultWorkspaceID (o : Oracle) : String × Option String :=
  match o.defaultWorkspaces with
  | [] => ("", none)
  | w :: _ => (goItoa w.id, none)

/-- `findWorkspaceURLOrDefault` (api_client.go lines 405-420), returning
`((workspaceURL, error), issued calls)`.  The default-workspace lookup is
one HTTP GET. -/
def findWorkspaceURLOrDefault (config : Config) (o : Oracle) (workspaceURL : String) :
    (String × Option String) × List NetCall :=
  if workspaceURL = "" then
    match findDefaultWorkspaceID o with
    | (wid, some e) =>
      (("", some ("athena.apiClient: Failed to find default workspace: " ++ e)),
        [NetCall.getWorkspacesFilterDefault])
    | (wid, none) =>
      match goAtoi wid with
      | none =>
        (("", some ("athena.apiClient: Failed to convert Workspace ID '" ++ wid ++
          "' to integer")), [NetCall.getWorkspacesFilterDefault])
      | some n =>
        ((itemURL config WorkspaceResourceType n, none), [NetCall.getWorkspacesFilterDefault])
  else ((workspaceURL, none), [])

/-- Result of `CreateIPAMReservation`: the returned value or error, the
network calls issued, and the caller-supplied record after the in-place
mutation the function performs on it. -/
structure CreateResult where
  outcome : GoOutcome IPAMReservation
  calls : List NetCall
  record : IPAMReservation
deriving DecidableEq

/-- `CreateIPAMReservation` (api_client.go lines 183-215) combined with
`handleAsyncRequestAndFetchManagdObject` / `handleAsyncRequest`
(lines 304-350).  Mirrors the source order: resolve the workspace (the Go
multiple assignment writes the returned string into the record even on
error), validate the policy fields (`Policy` must be empty and `PolicyID`
non-zero; the policy URL is built with `WorkspaceResourceType`, exactly
as line 195 does), POST the mutated record, decode the submission
response, poll `waitForJob`, check job errors, then GET the managed
object linked from the final polled status and return the hydrated
entity. -/
def CreateIPAMReservation (config : Config) (o : Oracle) (rec0 : IPAMReservation) :
    CreateResult :=
  let wres := findWorkspaceURLOrDefault config o rec0.workspaceURL
  let rec1 := { rec0 with workspaceURL := wres.1.1 }
  match wres.1.2 with
  | some e => ⟨GoOutcome.err e, wres.2, rec1⟩
  | none =>
    if rec1.policy = "" then
      if rec1.policyID ≠ 0 then
        let rec2 := { rec1 with policy := itemURL config WorkspaceResourceType rec1.policyID }
        let pr := waitAux o.pollStates o.pollDur 721 0 0
        let pollCalls := List.replicate pr.2 (NetCall.getJobStatus o.submitJob.id)
        let baseCalls := wres.2 ++ [NetCall.postReservation rec2] ++ pollCalls
        match pr.1 with
        | none => ⟨GoOutcome.err "Timed out while waiting for job to complete.", baseCalls, rec2⟩
        | some js =>
          match checkForJobErrors js with
          | GoOutcome.err m => ⟨GoOutcome.err m, baseCalls, rec2⟩
          | GoOutcome.crash => ⟨GoOutcome.crash, baseCalls, rec2⟩
          | GoOutcome.ok _ =>
            match js.links with
            | none => ⟨GoOutcome.crash, baseCalls, rec2⟩
            | some L =>
              let url := urlFromHref config L.managedObject.href
              ⟨GoOutcome.ok (o.fetchEntity url),
                baseCalls ++ [NetCall.getManagedObject url], rec2⟩
      else
        ⟨GoOutcome.err "athena.apiClient: IPAM Record Create requires a PolicyID or Policy URL",
          wres.2, rec1⟩
    else
      ⟨GoOutcome.err "athena.apiClient: IPAM Record Create requires a PolicyID or Policy URL",
        wres.2, rec1⟩

/-- `UpdateIPAMReservation` (api_client.go lines 236-240). -/
def UpdateIPAMReservation (id : Int) (updatedIPAMReservation : IPAMReservation) :
    Except String IPAMReservation :=
  Except.error "athena.apiClient: Not implemented yet"

/-! ### Binding layer (reservation resource file) -/

/-- Go `strings.Split` with a one-character separator: splits at every
occurrence; the empty string yields `[""]`. -/
def goSplitAux (sep : Char) : List Char → List Char → List String
  | [], acc => [String.mk acc.reverse]
  | c :: cs, acc =>
    if c = sep then String.mk acc.reverse :: goSplitAux sep cs []
    else goSplitAux sep cs (c :: acc)

def goSplit (s : String) (sep : Char) : List String :=
  goSplitAux sep s.data []

/-- The flat field record the binding layer reads and writes
(the schema of the reservation resource). -/
structure RData where
  hostname : String
  computed_hostname : String
  policy_id : Int
  workspace_url : String
  ip_address : String
  netmask : String
  gateway : String
  network : String
  subnet : String
  primary_dns : String
  secondary_dns : String
  nic_label : String
  dns_suffix : String
  dns_search_suffix : List String
  template_properties : List (String × String)
deriving DecidableEq

/-- `bindIPAMReservationResource` (resource file lines 110-165).  The
`d.Set` calls are pure field updates here (their environmental errors are
not modelled).  Dereferencing `ipamRecord.Links` when the pointer is nil
is a panic; so is indexing the split policy href at `len-2` when the
split has fewer than two segments; `strconv.Atoi`'s error is discarded,
leaving the zero value 0 as the policy id. -/
def bindIPAMReservationResource (d : RData) (ipamRecord : IPAMReservation) : GoOutcome RData :=
  let d1 := { d with computed_hostname := ipamRecord.hostname }
  match ipamRecord.links with
  | none => GoOutcome.crash
  | some L =>
    let d2 := { d1 with
      workspace_url := L.workspace.href
      ip_address := ipamRecord.ipAddress
      netmask := ipamRecord.netmask
      primary_dns := ipamRecord.primaryDNS
      secondary_dns := ipamRecord.secondaryDNS
      gateway := ipamRecord.gateway
      network := ipamRecord.network
      subnet := ipamRecord.subnet
      nic_label := ipamRecord.nicLabel
      dns_suffix := ipamRecord.dnsSuffix }
    let parts := goSplit L.policy.href '/'
    if parts.length < 2 then GoOutcome.crash
    else
      GoOutcome.ok
        { d2 with policy_id := (goAtoi (parts.getD (parts.length - 2) "")).getD 0 }

/-- The change detection of `resourceIPAMReservationUpdate` (resource
file lines 225-238), verbatim field list and order. -/
def updateChanged (hasChange : String → Bool) : Bool :=
  hasChange "hostname" ||
    hasChange "computed_hostname" ||
    hasChange "policy_id" ||
    hasChange "workspace_url" ||
    hasChange "ip_address" ||
    hasChange "netmask" ||
    hasChange "subnet" ||
    hasChange "network" ||
    hasChange "gateway" ||
    hasChange "primary_dns" ||
    hasChange "secondary_dns" ||
    hasChange "dns_suffix" ||
    hasChange "nic_label" ||
    hasChange "template_properties"

/-- Outcome of the binding-layer update entry point. -/
inductive BindingUpdateResult where
  | noChange
  | idErr (msg : String)
  | apiErr (msg : String)
  | bound
deriving DecidableEq

/-- `resourceIPAMReservationUpdate` (resource file lines 221-281): return
nil when no checked field changed; otherwise convert the id and call
`UpdateIPAMReservation` (whose success continuation, binding the result,
is unreachable because the update API always errors). -/
def resourceIPAMReservationUpdate (hasChange : String → Bool) (idStr : String)
    (desiredIPAMRecord : IPAMReservation) : BindingUpdateResult :=
  if updateChanged hasChange = false then BindingUpdateResult.noChange
  else
    match goAtoi idStr with
    | none => BindingUpdateResult.idErr "strconv.Atoi: invalid syntax"
    | some n =>
      match UpdateIPAMReservation n desiredIPAMRecord with
      | Except.error m => BindingUpdateResult.apiErr m
      | Except.ok _ => BindingUpdateResult.bound

/-! ### Concrete fixtures used in counterexamples and witnesses -/

def cfgA : Config := ⟨"https", "h", "3411", "u", "pw", true⟩

def linksA : JobLinks :=
  ⟨⟨"/self", ""⟩, ⟨"/meta", ""⟩, ⟨"/api/v3/onefuse/ipamReservations/9/", ""⟩,
    ⟨"/pol", ""⟩, ⟨"/ws", ""⟩⟩

def jsSuccessA : JobStatus := ⟨some linksA, 7, "", "Successful", "", "Ipam Reservation", none⟩

def jsPendingA : JobStatus := ⟨none, 7, "", "Pending", "", "Ipam Reservation", none⟩

/-- Poll sequence Pending, Pending, Successful, Successful, ... -/
def pollPPS : Nat → JobStatus := fun n => if n < 2 then jsPendingA else jsSuccessA

def entityA : IPAMReservation :=
  ⟨none, 9, "host1", 0, "", "", "10.0.0.4", "10.0.0.1", "8.8.8.8", "8.8.4.4",
    "net", "sub", "corp.example", "255.255.255.0", "nic0", []⟩

def submitJobA : JobStatus := ⟨none, 7, "", "", "", "", none⟩

def oracleA : Oracle := ⟨[], submitJobA, pollPPS, fun _ => 0, fun _ => entityA⟩

def recA : IPAMReservation :=
  ⟨none, 0, "host1", 5, "", "W", "", "", "", "", "", "", "", "", "", []⟩

def recA2 : IPAMReservation :=
  { recA with policy := "https://h:3411/api/v3/onefuse/workspaces/5/" }

/-! ### Poll-loop lemmas -/

/-- The poll loop always issues at least one status fetch when it has fuel. -/
lemma waitAux_count_pos (s : Nat → JobStatus) (d : Nat → Nat) (f i e : Nat) :
    1 ≤ (waitAux s d (f + 1) i e).2 := by
  simp only [waitAux]
  split
  · simp
  · split
    · simp
    · simp

/-- End-of-first-iteration elapsed time bounds every later one. -/
lemma elapsedFrom_zero_le (d : Nat → Nat) :
    ∀ k i e, elapsedFrom d i e 0 ≤ elapsedFrom d i e k := by
  intro k
  induction k with
  | zero => intro i e; exact le_refl _
  | succ k ih =>
    intro i e
    have h1 := ih (i + 1) (e + d i + 5000)
    simp only [elapsedFrom] at h1 ⊢
    omega

/-- Each iteration adds at least its 5000 ms sleep to the clock. -/
lemma elapsedFrom_lower (d : Nat → Nat) :
    ∀ k i e, e + 5000 * (k + 1) ≤ elapsedFrom d i e k := by
  intro k
  induction k with
  | zero => intro i e; simp only [elapsedFrom]; omega
  | succ k ih =>
    intro i e
    have h1 := ih (i + 1) (e + d i + 5000)
    simp only [elapsedFrom] at h1 ⊢
    omega

/-- If the first terminal status appears at iteration `k` and that
iteration ends within the budget, the loop returns it after exactly
`k + 1` fetches. -/
lemma waitAux_success (s : Nat → JobStatus) (d : Nat → Nat) :
    ∀ k fuel i e, k < fuel →
      (∀ j, j < k → isTerminal (s (i + j)) = false) →
      isTerminal (s (i + k)) = true →
      elapsedFrom d i e k ≤ 3600000 →
      waitAux s d fuel i e = (some (s (i + k)), k + 1) := by
  intro k
  induction k with
  | zero =>
    intro fuel i e hf hnt ht he
    obtain ⟨f, rfl⟩ : ∃ f, fuel = f + 1 := ⟨fuel - 1, by omega⟩
    have he' : ¬ 3600000 < e + d i + 5000 := by
      simp only [elapsedFrom] at he; omega
    have ht' : isTerminal (s i) = true := by simpa using ht
    simp only [waitAux]
    rw [if_neg he', if_pos ht']
    simp
  | succ k ih =>
    intro fuel i e hf hnt ht he
    obtain ⟨f, rfl⟩ : ∃ f, fuel = f + 1 := ⟨fuel - 1, by omega⟩
    have hee := elapsedFrom_zero_le d (k + 1) i e
    have he' : ¬ 3600000 < e + d i + 5000 := by
      simp only [elapsedFrom] at hee he; omega
    have h0 : isTerminal (s i) = false := by simpa using hnt 0 (by omega)
    have hrec := ih f (i + 1) (e + d i + 5000) (by omega)
      (fun j hj => by
        have hj1 := hnt (j + 1) (by omega)
        rw [show i + (j + 1) = i + 1 + j from by omega] at hj1
        exact hj1)
      (by
        have ht1 := ht
        rw [show i + (k + 1) = i + 1 + k from by omega] at ht1
        exact ht1)
      (by simp only [elapsedFrom] at he; exact he)
    simp only [waitAux]
    rw [if_neg he', if_neg (by simp [h0])]
    rw [show i + (k + 1) = i + 1 + k from by omega, hrec]

/-- The loop reports the timeout error exactly when some iteration ends
past the budget with no earlier fetch terminal — regardless of whether
that iteration's own fetch was terminal. -/
lemma waitAux_timeout_iff (s : Nat → JobStatus) (d : Nat → Nat) :
    ∀ fuel i e, e ≤ 3600000 → 3600000 < e + 5000 * fuel →
      ((waitAux s d fuel i e).1 = none ↔
        ∃ k, 3600000 < elapsedFrom d i e k ∧ ∀ j, j < k → isTerminal (s (i + j)) = false) := by
  intro fuel
  induction fuel with
  | zero => intro i e he hb; omega
  | succ f ih =>
    intro i e he hb
    by_cases hto : 3600000 < e + d i + 5000
    · simp only [waitAux]
      rw [if_pos hto]
      constructor
      · intro _
        exact ⟨0, by simpa [elapsedFrom] using hto, fun j hj => absurd hj (Nat.not_lt_zero j)⟩
      · intro _; rfl
    · by_cases hterm : isTerminal (s i) = true
      · simp only [waitAux]
        rw [if_neg hto, if_pos hterm]
        constructor
        · intro h; exact absurd h (by simp)
        · rintro ⟨k, hk, hnt⟩
          cases k with
          | zero => exact absurd (by simpa [elapsedFrom] using hk) hto
          | succ k' => exact absurd hterm (by simpa using hnt 0 (by omega))
      · have h0 : isTerminal (s i) = false := by simpa using hterm
        simp only [waitAux]
        rw [if_neg hto, if_neg hterm]
        have hrec := ih (i + 1) (e + d i + 5000) (by omega) (by omega)
        constructor
        · intro h
          obtain ⟨k, hk, hnt⟩ := hrec.mp (by simpa using h)
          refine ⟨k + 1, ?_, ?_⟩
          · simpa [elapsedFrom] using hk
          · intro j hj
            cases j with
            | zero => simpa using h0
            | succ j' =>
              have hj1 := hnt j' (by omega)
              rw [show i + (j' + 1) = i + 1 + j' from by omega]
              exact hj1
        · rintro ⟨k, hk, hnt⟩
          cases k with
          | zero => exact absurd (by simpa [elapsedFrom] using hk) hto
          | succ k' =>
            have hgoal := hrec.mpr ⟨k', by simpa [elapsedFrom] using hk, fun j hj => by
              have hj1 := hnt (j + 1) (by omega)
              rw [show i + (j + 1) = i + 1 + j from by omega] at hj1
              exact hj1⟩
            simpa using hgoal

/-! ### Claim C1 -/

/-- Claim C1 (amended): the poll loop returns the timeout error
"Timed out while waiting for job to complete." (encoded `none`) iff some
iteration ends — after its status fetch and the 5000 ms sleep that
always follows, even a terminal fetch — more than 3,600,000 ms past
submission while no earlier iteration fetched a terminal status.  The
timeout check precedes the terminal re-check, so a terminal status
fetched within the budget can still be discarded in favour of the
timeout error when its own iteration overruns the budget. -/
theorem claim1_waitForJob_timeout_iff (statuses : Nat → JobStatus) (dur : Nat → Nat) :
    waitForJob statuses dur = none ↔
      ∃ k, 3600000 < elapsedAfter dur k ∧ ∀ j, j < k → isTerminal (statuses j) = false := by
  have h := waitAux_timeout_iff statuses dur 721 0 0 (by omega) (by omega)
  simpa [waitForJob, elapsedAfter] using h

/-- Claim C1 counterexample: the very first fetch takes 3,595,001 ms —
completing strictly within the one-hour budget — and returns the
terminal status "Successful"; the loop nevertheless returns the timeout
error, because after the mandatory 5000 ms sleep the elapsed time
3,600,001 ms exceeds the budget and the timeout check fires before the
terminal state is consulted. -/
theorem claim1_counterexample :
    waitForJob (fun _ => jsSuccessA) (fun _ => 3595001) = none ∧
      isTerminal jsSuccessA = true ∧ 3595001 < 3600000 := by
  refine ⟨by decide, by decide, by decide⟩

/-! ### Claim C2 -/

/-- Claim C2: the poll loop issues one status fetch per iteration, hence
at least one fetch for every status sequence, even one that is terminal
at submission; when the first terminal status appears at iteration `k`
and the loop stays within budget it performs exactly `k + 1` fetches and
returns that status; and on the concrete sequence Pending, Pending,
Successful the create engine performs exactly 3 status fetches, then
resolves the managed-object link of the final status and returns the
entity hydrated from it. -/
theorem claim2_poll_fetches :
    (∀ (statuses : Nat → JobStatus) (dur : Nat → Nat), 1 ≤ pollFetchCount statuses dur) ∧
    (∀ (statuses : Nat → JobStatus) (dur : Nat → Nat) (k : Nat),
      (∀ j, j < k → isTerminal (statuses j) = false) →
      isTerminal (statuses k) = true →
      elapsedAfter dur k ≤ 3600000 →
      pollFetchCount statuses dur = k + 1 ∧ waitForJob statuses dur = some (statuses k)) ∧
    CreateIPAMReservation cfgA oracleA recA =
      ⟨GoOutcome.ok entityA,
        [NetCall.postReservation recA2, NetCall.getJobStatus 7, NetCall.getJobStatus 7,
          NetCall.getJobStatus 7,
          NetCall.getManagedObject "https://h:3411/api/v3/onefuse/ipamReservations/9/"],
        recA2⟩ := by
  refine ⟨?_, ?_, by decide⟩
  · intro statuses dur
    exact waitAux_count_pos statuses dur 720 0 0
  · intro statuses dur k hnt ht he
    have hk : k < 721 := by
      have := elapsedFrom_lower dur k 0 0
      simp only [elapsedAfter] at he
      omega
    have h := waitAux_success statuses dur k 721 0 0 hk
      (by simpa using hnt) (by simpa using ht) (by simpa [elapsedAfter] using he)
    constructor
    · simp [pollFetchCount, h]
    · simp [waitForJob, h]

/-- Claim C2 witness: on the sequence Pending, Pending, Successful with
instantaneous fetches the loop makes exactly 3 fetches and returns the
third status. -/
theorem claim2_witness :
    pollFetchCount pollPPS (fun _ => 0) = 3 ∧ waitForJob pollPPS (fun _ => 0) = some (pollPPS 2) :=
  claim2_poll_fetches.2.1 pollPPS (fun _ => 0) 2 (by decide) (by decide) (by decide)

/-! ### Substring containment -/

/-- `sub` occurs contiguously inside `s`. -/
def containsStr (s sub : String) : Prop := sub.data <:+: s.data

lemma listInfix_trans {α : Type} {a b c : List α} (h1 : a <:+: b) (h2 : b <:+: c) :
    a <:+: c := by
  obtain ⟨s, t, h1⟩ := h1
  obtain ⟨u, v, h2⟩ := h2
  exact ⟨u ++ s, t ++ v, by rw [← h2, ← h1]; simp [List.append_assoc]⟩

/-- Every error item's braced rendering occurs in the space-joined core. -/
lemma mem_goFmtErrsCore : ∀ (errs : List JobErrorItem) (e : JobErrorItem), e ∈ errs →
    ("\x7b" ++ e.message ++ "\x7d").data <:+: (goFmtErrsCore errs).data := by
  intro errs
  induction errs with
  | nil => intro e he; cases he
  | cons a rest ih =>
    intro e he
    cases rest with
    | nil =>
      have hea : e = a := by
        cases he with
        | head => rfl
        | tail _ h => cases h
      subst hea
      exact ⟨[], [], by simp [goFmtErrsCore]⟩
    | cons b rest2 =>
      cases he with
      | head =>
        refine ⟨[], (" " ++ goFmtErrsCore (b :: rest2)).data, ?_⟩
        simp [goFmtErrsCore, String.data_append, List.append_assoc]
      | tail _ h =>
        have hi := ih e h
        refine listInfix_trans hi ?_
        refine ⟨("\x7b" ++ a.message ++ "\x7d" ++ " ").data, [], ?_⟩
        simp [goFmtErrsCore, String.data_append, List.append_assoc]

/-- The failure message contains the job type, the decimal job id, and
every structured error message. -/
lemma jobFailureMessage_contains (js : JobStatus) (errs : List JobErrorItem) :
    containsStr (jobFailureMessage js errs) js.jobType ∧
    containsStr (jobFailureMessage js errs) (goItoa js.id) ∧
    ∀ e ∈ errs, containsStr (jobFailureMessage js errs) e.message := by
  refine ⟨?_, ?_, ?_⟩
  · refine ⟨"Job ".data,
      (" (" ++ goItoa js.id ++ ") failed with message " ++ goFmtErrList errs).data, ?_⟩
    simp [jobFailureMessage, String.data_append, List.append_assoc]
  · refine ⟨("Job " ++ js.jobType ++ " (").data,
      (") failed with message " ++ goFmtErrList errs).data, ?_⟩
    simp [jobFailureMessage, String.data_append, List.append_assoc]
  · intro e he
    have h1 : e.message.data <:+: ("\x7b" ++ e.message ++ "\x7d").data :=
      ⟨"\x7b".data, "\x7d".data, by simp [String.data_append, List.append_assoc]⟩
    have h2 := mem_goFmtErrsCore errs e he
    have h3 : (goFmtErrsCore errs).data <:+: (goFmtErrList errs).data :=
      ⟨"[".data, "]".data, by simp [goFmtErrList, String.data_append, List.append_assoc]⟩
    have h4 : (goFmtErrList errs).data <:+: (jobFailureMessage js errs).data :=
      ⟨("Job " ++ js.jobType ++ " (" ++ goItoa js.id ++ ") failed with message ").data, [],
        by simp [jobFailureMessage, String.data_append, List.append_assoc]⟩
    exact listInfix_trans (listInfix_trans (listInfix_trans h1 h2) h3) h4

/-- `checkForJobErrors` on a failed status with populated error details
returns the formatted failure error. -/
lemma checkForJobErrors_failed (js : JobStatus) (ed : JobErrorDetails)
    (errs : List JobErrorItem) (hstate : js.jobState = JobFailed)
    (hed : js.errorDetails = some ed) (herrs : ed.errors = some errs) :
    checkForJobErrors js = GoOutcome.err (jobFailureMessage js errs) := by
  simp only [checkForJobErrors, hstate, hed, herrs]
  rw [if_neg (by decide)]

/-! ### Claim C3 -/

set_option maxRecDepth 10000 in
/-- Claim C3: when the polled terminal state is Failed and the status
carries error details with a populated error list, the create engine
returns (instead of any entity) an error whose text contains the job
type, the job id, and every structured error message from the
error-details field. -/
theorem claim3_failed_job_error (config : Config) (o : Oracle) (rec : IPAMReservation)
    (wurl : String) (js : JobStatus) (n : Nat) (ed : JobErrorDetails)
    (errs : List JobErrorItem)
    (hw : (findWorkspaceURLOrDefault config o rec.workspaceURL).1 = (wurl, none))
    (hp : rec.policy = "") (hpid : rec.policyID ≠ 0)
    (hpoll : waitAux o.pollStates o.pollDur 721 0 0 = (some js, n))
    (hstate : js.jobState = JobFailed)
    (hed : js.errorDetails = some ed) (herrs : ed.errors = some errs) :
    (CreateIPAMReservation config o rec).outcome =
      GoOutcome.err (jobFailureMessage js errs) ∧
    containsStr (jobFailureMessage js errs) js.jobType ∧
    containsStr (jobFailureMessage js errs) (goItoa js.id) ∧
    ∀ e ∈ errs, containsStr (jobFailureMessage js errs) e.message := by
  refine ⟨?_, jobFailureMessage_contains js errs⟩
  have hchk := checkForJobErrors_failed js ed errs hstate hed herrs
  unfold CreateIPAMReservation
  simp only [hw, hp, hpoll, hchk]
  simp [hp, hpid]

/-- Claim C3 fixtures: a Failed terminal status carrying error details
with code 400 and one message "bad hostname". -/
def errsBad : List JobErrorItem := [⟨"bad hostname"⟩]

def edBad : JobErrorDetails := ⟨400, some errsBad⟩

def jsFailedB : JobStatus := ⟨some linksA, 7, "", "Failed", "", "Ipam Reservation", some edBad⟩

def oracleB : Oracle := ⟨[], submitJobA, fun _ => jsFailedB, fun _ => 0, fun _ => entityA⟩

/-- Claim C3 witness: on the concrete Failed job with error details
code 400 and message "bad hostname", the create call errors and the
error text contains "bad hostname". -/
theorem claim3_witness :
    (CreateIPAMReservation cfgA oracleB recA).outcome =
      GoOutcome.err (jobFailureMessage jsFailedB errsBad) ∧
    containsStr (jobFailureMessage jsFailedB errsBad) "bad hostname" := by
  have h := claim3_failed_job_error cfgA oracleB recA "W" jsFailedB 1 edBad errsBad
    (by decide) (by decide) (by decide) (by decide) (by decide) (by decide) (by decide)
  exact ⟨h.1, h.2.2.2 ⟨"bad hostname"⟩ (by decide)⟩

/-! ### Workspace-resolution lemmas -/

/-- A caller-supplied workspace URL is passed through with no HTTP call. -/
lemma findWorkspace_given (config : Config) (o : Oracle) (w : String) (hw : w ≠ "") :
    findWorkspaceURLOrDefault config o w = ((w, none), []) := by
  simp [findWorkspaceURLOrDefault, hw]

/-- When no workspace URL is supplied, the resolution always issues
exactly the default-workspace lookup GET. -/
lemma findWorkspace_lookup_calls (config : Config) (o : Oracle) :
    (findWorkspaceURLOrDefault config o "").2 = [NetCall.getWorkspacesFilterDefault] := by
  have hempty : goAtoi "" = none := by decide
  cases hws : o.defaultWorkspaces with
  | nil => simp [findWorkspaceURLOrDefault, findDefaultWorkspaceID, hws, hempty]
  | cons w ws =>
    cases hga : goAtoi (goItoa w.id) with
    | none => simp [findWorkspaceURLOrDefault, findDefaultWorkspaceID, hws, hga]
    | some n => simp [findWorkspaceURLOrDefault, findDefaultWorkspaceID, hws, hga]

/-- A create request whose policy fields are invalid fails with some
error, and the only calls it can have issued are those of the workspace
resolution. -/
lemma createIPAM_invalid_policy (config : Config) (o : Oracle) (rec : IPAMReservation)
    (wurl : String) (werr : Option String) (wcalls : List NetCall)
    (hfw : findWorkspaceURLOrDefault config o rec.workspaceURL = ((wurl, werr), wcalls))
    (hpol : (rec.policy = "" ∧ rec.policyID = 0) ∨ rec.policy ≠ "") :
    ∃ m, CreateIPAMReservation config o rec =
      ⟨GoOutcome.err m, wcalls, { rec with workspaceURL := wurl }⟩ := by
  unfold CreateIPAMReservation
  rw [hfw]
  cases werr with
  | some e => exact ⟨e, by simp⟩
  | none =>
    rcases hpol with ⟨hp, h0⟩ | hp
    · exact ⟨"athena.apiClient: IPAM Record Create requires a PolicyID or Policy URL",
        by simp [hp, h0]⟩
    · exact ⟨"athena.apiClient: IPAM Record Create requires a PolicyID or Policy URL",
        by simp [hp]⟩

/-! ### Claim C4 -/

/-- A record supplying neither a policy id nor a policy URL, and no
workspace URL either. -/
def recNeither : IPAMReservation :=
  ⟨none, 0, "host1", 0, "", "", "", "", "", "", "", "", "", "", "", []⟩

/-- Oracle whose default-workspace lookup succeeds with id 1. -/
def oracleW : Oracle :=
  ⟨[⟨none, 1, "Default"⟩], submitJobA, pollPPS, fun _ => 0, fun _ => entityA⟩

/-- Claim C4 counterexample: a create request supplying neither policy
id nor policy URL, and no workspace URL, returns the policy
request-construction error only after issuing the default-workspace
lookup GET — so an HTTP call is made before the error, contrary to the
claim that no network request of any kind (including the workspace
lookup) is issued. -/
theorem claim4_counterexample :
    (CreateIPAMReservation cfgA oracleW recNeither).outcome =
      GoOutcome.err "athena.apiClient: IPAM Record Create requires a PolicyID or Policy URL" ∧
    (CreateIPAMReservation cfgA oracleW recNeither).calls =
      [NetCall.getWorkspacesFilterDefault] := by
  refine ⟨by decide, by decide⟩

set_option maxRecDepth 10000 in
/-- Claim C4 (amended): a create request supplying neither or both of
policy id and policy URL always fails with an error and never issues the
mutating POST; the error comes before any network request only when the
record already carries a workspace URL — when it does not, the
default-workspace lookup GET (and only it) is issued first. -/
theorem claim4_policy_reject (config : Config) (o : Oracle) (rec : IPAMReservation)
    (hpol : (rec.policy = "" ∧ rec.policyID = 0) ∨ (rec.policy ≠ "" ∧ rec.policyID ≠ 0)) :
    (∃ m, (CreateIPAMReservation config o rec).outcome = GoOutcome.err m) ∧
    (∀ b, NetCall.postReservation b ∉ (CreateIPAMReservation config o rec).calls) ∧
    (rec.workspaceURL ≠ "" → (CreateIPAMReservation config o rec).calls = []) ∧
    (rec.workspaceURL = "" →
      (CreateIPAMReservation config o rec).calls = [NetCall.getWorkspacesFilterDefault]) := by
  have hpol2 : (rec.policy = "" ∧ rec.policyID = 0) ∨ rec.policy ≠ "" := by tauto
  rcases hfw : findWorkspaceURLOrDefault config o rec.workspaceURL with ⟨⟨wu, werr⟩, wcalls⟩
  obtain ⟨m, hm⟩ := createIPAM_invalid_policy config o rec wu werr wcalls hfw hpol2
  have hcalls : wcalls = [] ∨ wcalls = [NetCall.getWorkspacesFilterDefault] := by
    by_cases hwe : rec.workspaceURL = ""
    · right
      have h2 := findWorkspace_lookup_calls config o
      rw [hwe] at hfw
      rw [hfw] at h2
      simpa using h2
    · left
      have h2 := findWorkspace_given config o rec.workspaceURL hwe
      rw [h2] at hfw
      have h3 := congrArg Prod.snd hfw
      simpa using h3.symm
  refine ⟨⟨m, by rw [hm]⟩, ?_, ?_, ?_⟩
  · intro b hb
    rw [hm] at hb
    rcases hcalls with h | h <;> rw [h] at hb <;> simp at hb
  · intro hwe
    have h2 := findWorkspace_given config o rec.workspaceURL hwe
    rw [h2] at hfw
    have h3 := congrArg Prod.snd hfw
    rw [hm]
    simpa using h3.symm
  · intro hwe
    have h2 := findWorkspace_lookup_calls config o
    rw [hwe] at hfw
    rw [hfw] at h2
    rw [hm]
    simpa using h2

/-- Claim C4 witness: the amended theorem applied to a record that
supplies neither policy reference but no workspace URL either: exactly
the lookup GET is issued. -/
theorem claim4_witness :
    (CreateIPAMReservation cfgA oracleW recNeither).calls =
      [NetCall.getWorkspacesFilterDefault] :=
  (claim4_policy_reject cfgA oracleW recNeither (Or.inl ⟨by decide, by decide⟩)).2.2.2
    (by decide)

/-! ### Claim C5 -/

/-- Claim C5 (code bug): the policy reference submitted on the wire is
built with `WorkspaceResourceType` (api_client.go line 195), so for
policy id 5 the record carries `.../workspaces/5/` — a URL of the
workspace resource type — and not the policy item hyperlink
`.../modulePolicies/5/` required by the external contract. -/
theorem claim5_policy_url_wrong_resource :
    (CreateIPAMReservation cfgA oracleA recA).record.policy =
      itemURL cfgA WorkspaceResourceType 5 ∧
    (CreateIPAMReservation cfgA oracleA recA).calls.head? =
      some (NetCall.postReservation recA2) ∧
    recA2.policy = "https://h:3411/api/v3/onefuse/workspaces/5/" ∧
    itemURL cfgA ModulePolicyResourceType 5 =
      "https://h:3411/api/v3/onefuse/modulePolicies/5/" ∧
    (CreateIPAMReservation cfgA oracleA recA).record.policy ≠
      itemURL cfgA ModulePolicyResourceType 5 := by
  refine ⟨by decide, by decide, by decide, by decide, by decide⟩

/-! ### Claim C6 -/

/-- A create request with no workspace URL and policy id 3. -/
def recNoWs : IPAMReservation :=
  ⟨none, 0, "host1", 3, "", "", "", "", "", "", "", "", "", "", "", []⟩

/-- Claim C6 (code bug): with a non-empty lookup result the resolved
workspace URL is the item URL of the first workspace returned by the
name-exact-Default filter; but when no such workspace exists,
`findDefaultWorkspaceID` builds its not-found error by wrapping a nil
cause (`errors.WithMessage(clientErr, ...)` with `clientErr` nil), which
yields a nil error, so the create call fails instead with the
workspace-id conversion error for the empty id string — not with the
not-found error — though it still issues no mutating call. -/
theorem claim6_default_workspace_notfound_bug :
    (findWorkspaceURLOrDefault cfgA oracleW "").1 =
      (itemURL cfgA WorkspaceResourceType 1, none) ∧
    findDefaultWorkspaceID oracleA = ("", none) ∧
    (CreateIPAMReservation cfgA oracleA recNoWs).outcome =
      GoOutcome.err "athena.apiClient: Failed to convert Workspace ID '' to integer" ∧
    (CreateIPAMReservation cfgA oracleA recNoWs).calls =
      [NetCall.getWorkspacesFilterDefault] := by
  refine ⟨by decide, by decide, by decide, by decide⟩

/-! ### Claim C7 -/

/-- A change set in which only the dns_search_suffix list changed. -/
def updOnlyDNSSearch : String → Bool := fun f => f == "dns_search_suffix"

/-- Claim C7 counterexample: when only the dns_search_suffix list has
changed, the binding-layer update treats the reservation as unchanged
and returns success without any remote call — so dns_search_suffix is
not among the tracked fields, contrary to the claim that all schema
fields including dns_search_suffix are tracked. -/
theorem claim7_counterexample :
    updateChanged updOnlyDNSSearch = false ∧
    resourceIPAMReservationUpdate updOnlyDNSSearch "1" recA =
      BindingUpdateResult.noChange := by
  refine ⟨by decide, by decide⟩

/-- The fields whose changes the binding-layer update actually checks. -/
def trackedUpdateFields : List String :=
  ["hostname", "computed_hostname", "policy_id", "workspace_url", "ip_address",
    "netmask", "subnet", "network", "gateway", "primary_dns", "secondary_dns",
    "dns_suffix", "nic_label", "template_properties"]

/-- Claim C7 (amended): the update API reports "not implemented" for
every id and record; the binding-layer update entry point returns
success without attempting any remote call whenever no tracked field
changed; and the tracked fields are exactly the fourteen listed in
`trackedUpdateFields` — the dns_search_suffix list is not among them. -/
theorem claim7_update_paths :
    (∀ (id : Int) (rec : IPAMReservation),
      UpdateIPAMReservation id rec = Except.error "athena.apiClient: Not implemented yet") ∧
    (∀ (hasChange : String → Bool) (idStr : String) (rec : IPAMReservation),
      updateChanged hasChange = false →
      resourceIPAMReservationUpdate hasChange idStr rec = BindingUpdateResult.noChange) ∧
    (∀ hasChange : String → Bool,
      updateChanged hasChange = trackedUpdateFields.any hasChange) := by
  refine ⟨fun _ _ => rfl, ?_, ?_⟩
  · intro hasChange idStr rec h
    simp [resourceIPAMReservationUpdate, h]
  · intro hasChange
    simp [updateChanged, trackedUpdateFields, List.any_cons, List.any_nil,
      Bool.or_assoc, Bool.or_false]

/-- Claim C7 witness: a change set in which nothing changed yields the
no-op success. -/
theorem claim7_witness :
    resourceIPAMReservationUpdate (fun _ => false) "2" recNoWs =
      BindingUpdateResult.noChange :=
  claim7_update_paths.2.1 (fun _ => false) "2" recNoWs (by decide)

/-! ### Claim C8 -/

/-- Claim C8: the job-failure branch of `checkForJobErrors` is not total:
on a Failed terminal status whose error-details field is absent, or whose
inner errors list pointer is absent, building the failure message
dereferences a nil pointer and the failure path crashes instead of
returning an error value. -/
theorem claim8_checkForJobErrors_crash (js : JobStatus)
    (hstate : js.jobState = JobFailed)
    (hmiss : js.errorDetails = none ∨
      ∃ ed, js.errorDetails = some ed ∧ ed.errors = none) :
    checkForJobErrors js = GoOutcome.crash := by
  have hne : ¬ js.jobState = JobSuccess := by rw [hstate]; decide
  rcases hmiss with h | ⟨ed, hed, herrs⟩
  · simp [checkForJobErrors, hne, h]
  · simp [checkForJobErrors, hne, hed, herrs]

/-- A Failed terminal status with no error details at all. -/
def jsFailedNoDetails : JobStatus := ⟨none, 3, "", "Failed", "", "Ipam Reservation", none⟩

/-- Claim C8 witness: the concrete Failed status without error details
crashes the error-surfacing path. -/
theorem claim8_witness : checkForJobErrors jsFailedNoDetails = GoOutcome.crash :=
  claim8_checkForJobErrors_crash jsFailedNoDetails (by decide) (Or.inl (by decide))

/-! ### Claim C9 -/

/-- Claim C9: binding a reservation back into the external record
requires a non-nil links block and a policy href splitting into at least
two segments: with the links block absent the bind crashes on a nil
dereference; with links present but an empty policy href the split has a
single segment and indexing its second-to-last element crashes; and when
the split has at least two segments but the second-to-last is
non-numeric, the discarded conversion error silently leaves policy id 0. -/
theorem claim9_bind_totality :
    (∀ (d : RData) (rec : IPAMReservation), rec.links = none →
      bindIPAMReservationResource d rec = GoOutcome.crash) ∧
    (∀ (d : RData) (rec : IPAMReservation) (L : IPAMLinks), rec.links = some L →
      L.policy.href = "" → bindIPAMReservationResource d rec = GoOutcome.crash) ∧
    (∀ (d : RData) (rec : IPAMReservation) (L : IPAMLinks), rec.links = some L →
      2 ≤ (goSplit L.policy.href '/').length →
      goAtoi ((goSplit L.policy.href '/').getD ((goSplit L.policy.href '/').length - 2) "") =
        none →
      ∃ d2, bindIPAMReservationResource d rec = GoOutcome.ok d2 ∧ d2.policy_id = 0) := by
  refine ⟨?_, ?_, ?_⟩
  · intro d rec h
    simp [bindIPAMReservationResource, h]
  · intro d rec L hL he
    have hsplit : (goSplit "" '/').length = 1 := by decide
    simp [bindIPAMReservationResource, hL, he, hsplit]
  · intro d rec L hL hlen hnone
    have hlt : ¬ (goSplit L.policy.href '/').length < 2 := by omega
    simp only [bindIPAMReservationResource, hL]
    rw [if_neg hlt]
    refine ⟨_, rfl, ?_⟩
    simp only [List.getD, List.get?_eq_getElem?] at hnone
    simp [hnone]

/-- Empty binding record used as the pre-state of the external record. -/
def rd0 : RData := ⟨"", "", 0, "", "", "", "", "", "", "", "", "", "", [], []⟩

/-- Reservation whose policy hyperlink has a non-numeric second-to-last
segment. -/
def recBadPolicyHref : IPAMReservation :=
  ⟨some ⟨⟨"/s", ""⟩, ⟨"/w", ""⟩, ⟨"x/y/", ""⟩, ⟨"/jm", ""⟩⟩,
    9, "host1", 0, "", "", "", "", "", "", "", "", "", "", "", []⟩

/-- Claim C9 witness: a reservation with no links block crashes the
bind, and one whose policy href second-to-last segment is non-numeric
binds policy id 0. -/
theorem claim9_witness :
    bindIPAMReservationResource rd0 recNoWs = GoOutcome.crash ∧
    ∃ d2, bindIPAMReservationResource rd0 recBadPolicyHref = GoOutcome.ok d2 ∧
      d2.policy_id = 0 :=
  ⟨claim9_bind_totality.1 rd0 recNoWs (by decide),
    claim9_bind_totality.2.2 rd0 recBadPolicyHref ⟨⟨"/s", ""⟩, ⟨"/w", ""⟩, ⟨"x/y/", ""⟩,
      ⟨"/jm", ""⟩⟩ (by decide) (by decide) (by decide)⟩

/-! ### Claim C10 -/

set_option maxRecDepth 10000 in
/-- Claim C10: on the create path that reaches submission, the
caller-supplied record is mutated in place before the POST: its
workspace-URL field is overwritten with the resolved workspace URL and
its policy-URL field with the URL translated from the policy id, while
every other field is left unchanged. -/
theorem claim10_record_mutation (config : Config) (o : Oracle) (rec : IPAMReservation)
    (wurl : String)
    (hw : (findWorkspaceURLOrDefault config o rec.workspaceURL).1 = (wurl, none))
    (hp : rec.policy = "") (hpid : rec.policyID ≠ 0) :
    (CreateIPAMReservation config o rec).record =
      { rec with workspaceURL := wurl,
                 policy := itemURL config WorkspaceResourceType rec.policyID } := by
  unfold CreateIPAMReservation
  simp only [hw, hp]
  rcases hpr : waitAux o.pollStates o.pollDur 721 0 0 with ⟨res, cnt⟩
  cases res with
  | none => simp [hp, hpid, hpr]
  | some js =>
    rcases hc : checkForJobErrors js with _ | m | _
    · cases hl : js.links with
      | none => simp [hp, hpid, hpr, hc, hl]
      | some L => simp [hp, hpid, hpr, hc, hl]
    · simp [hp, hpid, hpr, hc]
    · simp [hp, hpid, hpr, hc]

/-- Claim C10 witness: the concrete create call rewrites exactly the
workspace-URL and policy fields of the caller's record. -/
theorem claim10_witness :
    (CreateIPAMReservation cfgA oracleA recA).record =
      { recA with workspaceURL := "W",
                  policy := itemURL cfgA WorkspaceResourceType recA.policyID } :=
  claim10_record_mutation cfgA oracleA recA "W" (by decide) (by decide) (by decide)

end Athena
